import Mathlib

/-!
Shallow embedding of the OfferCompare server (offer creation and scoring in
`server/storage.ts` and `server/routes.ts`, offer history, offer updates,
and the listing-insights endpoint) and verification of the claims of the
specification about it.

Modelling conventions:
* numeric columns are modelled by the rationals (the exact arithmetic of the
  formulas appearing in the code);
* JavaScript `Math.round` is modelled by rounding half toward positive
  infinity, which is its behaviour on numbers;
* nullable / optional fields are modelled by `Option`; the JavaScript
  idiom `x || d` on a possibly-null numeric or id value is modelled by
  `Option.getD` (ids and version numbers in this store are at least 1, so
  zero-falsiness never differs from null-checking);
* the in-memory `Map` of offers is modelled by a list of offer records with
  distinct ids, in insertion order.
-/

namespace OfferCompare

/-- JavaScript `Math.round`: round half toward positive infinity. -/
def jround (q : ℚ) : ℤ := Rat.floor (q + 1/2)

/-- A listing row, restricted to the fields the offer pipeline reads
(`loanBalance` is a nullable numeric column in the `listings` table). -/
structure Listing where
  id : Nat
  userId : Nat
  price : ℚ
  loanBalance : Option ℚ
deriving Repr, DecidableEq

/-- A stored offer row (the `offers` table of `shared/schema.ts`), restricted
to the fields touched by the server logic under verification.  `numeric`
columns are rationals, nullable columns are `Option`.  `closingTimelineDays`
is kept numeric, as every claim (and every offer built by the creation form)
supplies it. -/
structure Offer where
  id : Nat
  listingId : Nat
  userId : Nat
  parentOfferId : Option Nat
  versionNumber : Option Int
  isCounterOffer : Option Bool
  buyerName : String
  buyerType : Option String
  price : ℚ
  netProceeds : Option ℚ
  agentCommission : Option ℚ
  commissionType : Option String
  closingTimelineDays : ℤ
  contingencies : List String
  riskScore : Option ℤ
  overallScore : Option ℤ
  notes : Option String
deriving Repr, DecidableEq

/-- The output of `insertOfferSchema.parse` (which omits `id`, `userId`,
`createdAt`, `riskScore`, `overallScore` and `netProceeds`): the
client-supplied fields of an offer. -/
structure InsertOffer where
  listingId : Nat
  parentOfferId : Option Nat := none
  versionNumber : Option Int := none
  isCounterOffer : Option Bool := none
  buyerName : String
  buyerType : Option String := none
  price : ℚ
  agentCommission : Option ℚ := none
  commissionType : Option String := none
  closingTimelineDays : ℤ
  contingencies : Option (List String) := none
  notes : Option String := none
deriving Repr, DecidableEq

/-- The object the POST /api/offers handler actually passes to
`storage.createOffer`: the validated insert data together with the
`netProceeds` value the route computed and spliced in. -/
structure OfferInsertPayload extends InsertOffer where
  netProceeds : Option ℚ := none
deriving Repr, DecidableEq

/-- `offer.agentCommission ? Number(offer.agentCommission) : 0.06 * price`
from `MemStorage.createOffer`: a missing (or zero, hence falsy) commission
defaults to 6% of the price. -/
def storageCommission (price : ℚ) (agentCommission : Option ℚ) : ℚ :=
  match agentCommission with
  | some c => if c = 0 then 6/100 * price else c
  | none => 6/100 * price

/-- `Math.max(1, 10 - contingencies.length * 2)` from
`MemStorage.createOffer`. -/
def riskScoreOf (n : Nat) : ℤ := max 1 (10 - (n : ℤ) * 2)

/-- `Math.round((price / 1000000 * 40) + (riskScore * 5) + (60 -
offer.closingTimelineDays / 2))` from `MemStorage.createOffer`. -/
def overallScoreOf (price : ℚ) (riskScore : ℤ) (closingTimelineDays : ℤ) : ℤ :=
  jround (price / 1000000 * 40 + (riskScore : ℚ) * 5 +
    (60 - (closingTimelineDays : ℚ) / 2))

/-- `MemStorage.createOffer`: spreads the incoming payload and then sets
`id`, `userId`, `netProceeds`, `riskScore`, `overallScore` and
`contingencies` on top of it, so the explicitly set fields override any
values the payload carried (in particular the `netProceeds` carried by the payload).
The id counter of the store is passed in as `id`. -/
def createOffer (payload : OfferInsertPayload) (userId id : Nat) : Offer :=
  let price := payload.price
  let commission := storageCommission price payload.agentCommission
  let netProceeds := price - commission
  let contingencies := payload.contingencies.getD []
  let riskScore := riskScoreOf contingencies.length
  let overallScore := overallScoreOf price riskScore payload.closingTimelineDays
  { id := id
    listingId := payload.listingId
    userId := userId
    parentOfferId := payload.parentOfferId
    versionNumber := payload.versionNumber
    isCounterOffer := payload.isCounterOffer
    buyerName := payload.buyerName
    buyerType := payload.buyerType
    price := price
    netProceeds := some netProceeds
    agentCommission := payload.agentCommission
    commissionType := payload.commissionType
    closingTimelineDays := payload.closingTimelineDays
    contingencies := contingencies
    riskScore := some riskScore
    overallScore := some overallScore
    notes := payload.notes }

/-- Commission-unit resolution of the POST /api/offers (and
POST /api/offers/extract) handlers:
`if (agentCommission > 0 && agentCommission <= 20) agentCommission =
(price * agentCommission) / 100`. -/
def resolveCommission (price c : ℚ) : ℚ :=
  if 0 < c ∧ c ≤ 20 then price * c / 100 else c

/-- The net proceeds the POST /api/offers handler computes:
`price - loanBalance - agentCommission`, with
`loanBalance = Number(listing.loanBalance || 0)` and the commission first
run through the percentage-vs-dollar resolution
(`Number(validatedData.agentCommission || 0)` defaults a missing commission
to 0 here). -/
def routeNetProceeds (listing : Listing) (ins : InsertOffer) : ℚ :=
  ins.price - listing.loanBalance.getD 0 -
    resolveCommission ins.price (ins.agentCommission.getD 0)

/-- The POST /api/offers handler, after validation and the listing
existence/ownership checks: splice the route-computed `netProceeds` into the
validated data and hand the result to `storage.createOffer`. -/
def postOffer (listing : Listing) (ins : InsertOffer) (userId id : Nat) :
    Offer :=
  createOffer
    { toInsertOffer := ins
      netProceeds := some (routeNetProceeds listing ins) } userId id

/-- `MemStorage.getOffer`: `offersData.get(id)`. -/
def getOffer (store : List Offer) (id : Nat) : Option Offer :=
  store.find? (fun o => o.id == id)

/-- The sort key used by `getOfferHistory`: `a.versionNumber || 1`. -/
def versionKey (o : Offer) : Int := o.versionNumber.getD 1

/-- Stable ascending insertion by version key, modelling the (stable)
JavaScript `Array.prototype.sort` with comparator
`(a, b) => (a.versionNumber || 1) - (b.versionNumber || 1)`. -/
def insertByVersion (o : Offer) : List Offer → List Offer
  | [] => [o]
  | x :: xs =>
    if versionKey o ≤ versionKey x then o :: x :: xs
    else x :: insertByVersion o xs

/-- Stable sort of the collected offers by `versionNumber || 1`. -/
def sortByVersion : List Offer → List Offer
  | [] => []
  | x :: xs => insertByVersion x (sortByVersion xs)

/-- `MemStorage.getOfferHistory`: looks the starting offer up (empty result
when absent), takes `rootOfferId = offer.parentOfferId || offer.id` — a
single step up the parent chain, not a walk to the root — then collects
every offer whose `parentOfferId` equals `rootOfferId` or whose id is
`rootOfferId`, and sorts the collection by version number. -/
def getOfferHistory (store : List Offer) (offerId : Nat) : List Offer :=
  match getOffer store offerId with
  | none => []
  | some offer =>
    let rootOfferId := offer.parentOfferId.getD offer.id
    match getOffer store rootOfferId with
    | none => [offer]
    | some _ =>
      let counterOffers := store.filter
        (fun o => o.parentOfferId == some rootOfferId || o.id == rootOfferId)
      if counterOffers.isEmpty then [offer]
      else sortByVersion counterOffers

/-- The GET /api/offers/:id/history handler, after authentication and
ownership checks: 404 "Offer not found" when the starting offer does not
exist, otherwise the storage history. -/
def historyRoute (store : List Offer) (offerId : Nat) :
    Except String (List Offer) :=
  match getOffer store offerId with
  | none => Except.error "Offer not found"
  | some _ => Except.ok (getOfferHistory store offerId)

/-- A `Partial<InsertOffer>` value, as accepted by `MemStorage.updateOffer`:
each insert field is either absent from the patch object (`none`) or present
with a replacement value. -/
structure OfferPatch where
  listingId : Option Nat := none
  parentOfferId : Option (Option Nat) := none
  versionNumber : Option (Option Int) := none
  isCounterOffer : Option (Option Bool) := none
  buyerName : Option String := none
  buyerType : Option (Option String) := none
  price : Option ℚ := none
  agentCommission : Option (Option ℚ) := none
  commissionType : Option (Option String) := none
  closingTimelineDays : Option ℤ := none
  contingencies : Option (Option (List String)) := none
  notes : Option (Option String) := none
deriving Repr, DecidableEq

/-- The object spread `{ ...existingOffer, ...offer }` of
`MemStorage.updateOffer`: every key present in the patch overrides the
corresponding value of the existing offer, every other field is kept.  The patch type cannot
name `id`, `userId`, `netProceeds`, `riskScore` or `overallScore` (the
insert schema omits them), so those fields always come from the existing
offer. -/
def applyPatch (o : Offer) (p : OfferPatch) : Offer :=
  { o with
    listingId := p.listingId.getD o.listingId
    parentOfferId := p.parentOfferId.getD o.parentOfferId
    versionNumber := p.versionNumber.getD o.versionNumber
    isCounterOffer := p.isCounterOffer.getD o.isCounterOffer
    buyerName := p.buyerName.getD o.buyerName
    buyerType := p.buyerType.getD o.buyerType
    price := p.price.getD o.price
    agentCommission := p.agentCommission.getD o.agentCommission
    commissionType := p.commissionType.getD o.commissionType
    closingTimelineDays := p.closingTimelineDays.getD o.closingTimelineDays
    contingencies := (p.contingencies.getD (some o.contingencies)).getD []
    notes := p.notes.getD o.notes }

/-- `offersData.set(id, updatedOffer)` on an id already present in the map:
replace the entry, keeping insertion order. -/
def setOffer (store : List Offer) (id : Nat) (o : Offer) : List Offer :=
  store.map (fun x => if x.id == id then o else x)

/-- `MemStorage.updateOffer`: `undefined` (and an untouched store) when the
id is absent; otherwise the spread-merged offer is stored back and
returned. -/
def updateOffer (store : List Offer) (id : Nat) (p : OfferPatch) :
    Option Offer × List Offer :=
  match getOffer store id with
  | none => (none, store)
  | some o =>
    let updated := applyPatch o p
    (some updated, setOffer store id updated)

/-- The insights payload of GET /api/listings/:listingId/insights. -/
structure Insights where
  recommendation : String
  riskAssessment : Option String
  netProceedsComparison : Option String
  negotiationOpportunities : Option String
deriving Repr, DecidableEq

/-- The "no offers to analyze yet" structured result returned when the
offer set of the listing is empty. -/
def noOffersInsights : Insights :=
  { recommendation := "No offers to analyze yet"
    riskAssessment := none
    netProceedsComparison := none
    negotiationOpportunities := none }

/-- The selection loop of the insights handler: starting from `offers[0]`,
replace the accumulator whenever the measured value is strictly larger
(JavaScript compares a null field as 0). -/
def selectMax (measure : Offer → ℚ) (first : Offer) (offers : List Offer) :
    Offer :=
  offers.foldl (fun acc o => if measure acc < measure o then o else acc) first

/-- The net-proceeds comparison sentence of the insights handler; it reads
`offers[1].netProceeds`, so it is only constructible when a second offer
exists.  Number formatting (`toLocaleString`) is modelled by plain
`toString`. -/
def netProceedsSentence (best second : Offer) : String :=
  let bestNet := best.netProceeds.getD 0
  let secondNet := second.netProceeds.getD 0
  "The " ++ best.buyerName ++
    " offer provides the highest net proceeds at $" ++ toString bestNet ++
    ", which is " ++
    (if 0 < bestNet - secondNet then
      "$" ++ toString (bestNet - secondNet) ++ " more"
    else "$" ++ toString (secondNet - bestNet) ++ " less") ++
    " than the next best offer."

/-- The GET /api/listings/:listingId/insights handler, after the ownership
check: an empty offer set gets the structured no-offers result; otherwise
the best / lowest-risk / highest-net-proceeds offers are selected by the
loop and the insight strings are built.  Building `netProceedsComparison`
dereferences `offers[1]`, which throws a TypeError (surfacing as a 500
response) when fewer than two offers exist; the thrown path is the
`Except.error` case. -/
def getInsights (offers : List Offer) : Except String Insights :=
  match offers with
  | [] => Except.ok noOffersInsights
  | o0 :: _ =>
    let bestOffer := selectMax (fun o => ((o.overallScore.getD 0 : ℤ) : ℚ))
      o0 offers
    let lowestRiskOffer := selectMax (fun o => ((o.riskScore.getD 0 : ℤ) : ℚ))
      o0 offers
    let highestNetProceedsOffer := selectMax (fun o => o.netProceeds.getD 0)
      o0 offers
    match offers.get? 1 with
    | none => Except.error "TypeError: cannot read netProceeds of undefined"
    | some second =>
      Except.ok
        { recommendation := "Based on your priorities, the offer from " ++
            bestOffer.buyerName ++
            " is the strongest overall option with a score of " ++
            toString (bestOffer.overallScore.getD 0) ++ "/100."
          riskAssessment := some ("The " ++ lowestRiskOffer.buyerName ++
            " offer has the lowest risk with " ++
            toString lowestRiskOffer.contingencies.length ++
            " contingencies. Consider this option if certainty of closing is your highest priority.")
          netProceedsComparison :=
            some (netProceedsSentence highestNetProceedsOffer second)
          negotiationOpportunities :=
            some "Consider asking buyers to reduce contingencies or improve their offer price to strengthen their position." }

/-! Concrete sample data used to evaluate the operations. -/

/-- A listing with a recorded loan balance of 100000. -/
def sampleListing : Listing :=
  { id := 1, userId := 1, price := 600000, loanBalance := some 100000 }

/-- An offer insert whose commission value 10 is percent-classified
(0 < 10 and 10 ≤ 20). -/
def percentInsert : InsertOffer :=
  { listingId := 1
    buyerName := "Alice"
    price := 500000
    agentCommission := some 10
    commissionType := some "percent"
    closingTimelineDays := 30
    contingencies := some ["inspection"] }

/-- An offer insert with no commission supplied. -/
def noCommissionInsert : InsertOffer :=
  { listingId := 1
    buyerName := "Dana"
    price := 500000
    closingTimelineDays := 30
    contingencies := some [] }

/-- A creation payload with a very high price (drives the overall score far
above 100). -/
def highScorePayload : OfferInsertPayload :=
  { listingId := 1
    buyerName := "Eve"
    price := 10000000
    agentCommission := some 30000
    closingTimelineDays := 30
    contingencies := some [] }

/-- A creation payload with a very long closing timeline (drives the overall
score below 0). -/
def lowScorePayload : OfferInsertPayload :=
  { listingId := 1
    buyerName := "Frank"
    price := 0
    agentCommission := some 30000
    closingTimelineDays := 1000
    contingencies := some [] }

/-- A root offer (version 1, no parent). -/
def rootOffer : Offer :=
  { id := 1
    listingId := 1
    userId := 1
    parentOfferId := none
    versionNumber := some 1
    isCounterOffer := some false
    buyerName := "Bob"
    buyerType := some "cash"
    price := 500000
    netProceeds := some 470000
    agentCommission := some 30000
    commissionType := some "dollar"
    closingTimelineDays := 30
    contingencies := []
    riskScore := some 10
    overallScore := some 95
    notes := none }

/-- The first counter offer: version 2, parent is the root. -/
def counterV2 : Offer :=
  { rootOffer with
    id := 2
    parentOfferId := some 1
    versionNumber := some 2
    isCounterOffer := some true }

/-- The second counter offer: version 3, parent is the immediate
predecessor version 2 — exactly how the counter-offer form links versions
(`parentOfferId: originalOffer.id`, `versionNumber: original + 1`). -/
def counterV3 : Offer :=
  { rootOffer with
    id := 3
    parentOfferId := some 2
    versionNumber := some 3
    isCounterOffer := some true }

/-- A store holding the negotiation thread v1 → v2 → v3. -/
def chainStore : List Offer := [rootOffer, counterV2, counterV3]

/-- A patch updating only the price. -/
def pricePatch : OfferPatch := { price := some 999999 }

/-! Claim theorems. -/

/-- C1 (code_bug evidence): the stored offer does not satisfy
`netProceeds = price - loanBalance - commissionDollars`.  The POST
/api/offers handler computes exactly that value (350000 on this input,
with loan balance 100000 and the 10% commission resolved to 50000) and
passes it along, but `MemStorage.createOffer` overwrites it with its own
`price - rawCommission` (499990 here): the loan balance is ignored and the
raw percent value 10 is subtracted as if it were dollars. -/
theorem netProceeds_overwritten_by_storage :
    (postOffer sampleListing percentInsert 1 1).netProceeds = some 499990 ∧
    routeNetProceeds sampleListing percentInsert = 350000 ∧
    (499990 : ℚ) ≠ 350000 := by
  refine ⟨?_, ?_, by norm_num⟩
  · show some (percentInsert.price -
      storageCommission percentInsert.price percentInsert.agentCommission) = _
    rw [percentInsert]
    norm_num [storageCommission]
  · rw [routeNetProceeds, sampleListing, percentInsert]
    norm_num [resolveCommission]

/-- C2: commission-unit resolution of the offer-creation handlers: a
commission value c with 0 < c ≤ 20 is treated as a percentage of the price
and resolved to price * c / 100; a value above 20 is kept unchanged as a
dollar amount. -/
theorem commission_resolution (price c : ℚ) :
    (0 < c → c ≤ 20 → resolveCommission price c = price * c / 100) ∧
    (20 < c → resolveCommission price c = c) := by
  constructor
  · intro h1 h2
    rw [resolveCommission, if_pos ⟨h1, h2⟩]
  · intro h
    rw [resolveCommission, if_neg]
    rintro ⟨-, h2⟩
    exact absurd h (not_lt.2 h2)

/-- Witness for C2 at price 500000: the percent input 10 resolves to 50000
and the dollar input 30 is kept unchanged. -/
theorem commission_resolution_witness :
    resolveCommission 500000 10 = 50000 ∧ resolveCommission 500000 30 = 30 := by
  constructor
  · rw [(commission_resolution 500000 10).1 (by norm_num) (by norm_num)]
    norm_num
  · exact (commission_resolution 500000 30).2 (by norm_num)

/-- C3: every created offer stores
`riskScore = max(1, 10 - 2 * contingencyCount)`; that value always lies in
[1, 10], is 10 at zero contingencies, is 1 from five contingencies on, and
is monotonically non-increasing in the contingency count. -/
theorem riskScore_formula (payload : OfferInsertPayload) (userId id : Nat)
    (m : Nat) :
    (createOffer payload userId id).riskScore =
      some (riskScoreOf (payload.contingencies.getD []).length) ∧
    1 ≤ riskScoreOf m ∧ riskScoreOf m ≤ 10 ∧
    riskScoreOf 0 = 10 ∧
    (5 ≤ m → riskScoreOf m = 1) ∧
    (∀ k : Nat, m ≤ k → riskScoreOf k ≤ riskScoreOf m) := by
  refine ⟨rfl, le_max_left _ _, ?_, by decide, ?_, ?_⟩
  · exact max_le (by norm_num) (by omega)
  · intro h
    rw [riskScoreOf, max_eq_left (by omega)]
  · intro k hk
    exact max_le_max le_rfl (by omega)

/-- Witness for C3: the sample payload has one contingency and gets risk
score 8; seven contingencies give risk score 1; nine contingencies score no
higher than seven. -/
theorem riskScore_formula_witness :
    (createOffer { toInsertOffer := percentInsert } 1 1).riskScore =
      some (riskScoreOf 1) ∧
    riskScoreOf 7 = 1 ∧ riskScoreOf 9 ≤ riskScoreOf 7 := by
  have h := riskScore_formula { toInsertOffer := percentInsert } 1 1 7
  exact ⟨h.1, h.2.2.2.2.1 (by norm_num), h.2.2.2.2.2 9 (by norm_num)⟩

/-- Unfolding lemma: `jround` is floor at a half offset. -/
theorem jround_eq_floor (q : ℚ) : jround q = ⌊q + 1/2⌋ := rfl

/-- C4: every created offer stores
`overallScore = round(price/1000000 * 40 + riskScore * 5 +
(60 - closingTimelineDays/2))`, and the value is not clamped to [0, 100]:
a 10M price drives it to 495 and a 1000-day timeline drives it to -390. -/
theorem overallScore_formula (payload : OfferInsertPayload) (userId id : Nat) :
    (createOffer payload userId id).overallScore =
      some (jround (payload.price / 1000000 * 40 +
        ((riskScoreOf (payload.contingencies.getD []).length : ℤ) : ℚ) * 5 +
        (60 - (payload.closingTimelineDays : ℚ) / 2))) ∧
    (createOffer highScorePayload 1 1).overallScore = some 495 ∧
    100 < (495 : ℤ) ∧
    (createOffer lowScorePayload 1 1).overallScore = some (-390) ∧
    (-390 : ℤ) < 0 := by
  have hr : riskScoreOf 0 = 10 := by decide
  refine ⟨rfl, ?_, by norm_num, ?_, by norm_num⟩
  · show some (overallScoreOf highScorePayload.price
      (riskScoreOf (highScorePayload.contingencies.getD []).length)
      highScorePayload.closingTimelineDays) = some 495
    rw [show (highScorePayload.contingencies.getD []).length = 0 from rfl, hr,
      show highScorePayload.price = 10000000 from rfl,
      show highScorePayload.closingTimelineDays = 30 from rfl,
      overallScoreOf, jround_eq_floor]
    norm_num [Int.floor_eq_iff]
  · show some (overallScoreOf lowScorePayload.price
      (riskScoreOf (lowScorePayload.contingencies.getD []).length)
      lowScorePayload.closingTimelineDays) = some (-390)
    rw [show (lowScorePayload.contingencies.getD []).length = 0 from rfl, hr,
      show lowScorePayload.price = 0 from rfl,
      show lowScorePayload.closingTimelineDays = 1000 from rfl,
      overallScoreOf, jround_eq_floor]
    norm_num [Int.floor_eq_iff]

/-- C5 (code_bug evidence): on the thread v1 → v2 → v3, in which each
counter offer points at its immediate predecessor (as the counter-offer
form builds them), the history operation never returns all three versions:
queried from v3 it resolves the "root" as v2 (one parent step instead of a
walk to termination) and returns only [v2, v3]; queried from v1 or v2 it
returns only [v1, v2].  A missing starting id does yield the NotFound
route response. -/
theorem history_misses_chain_members :
    (getOfferHistory chainStore 3).map (fun o => o.id) = [2, 3] ∧
    (getOfferHistory chainStore 1).map (fun o => o.id) = [1, 2] ∧
    (getOfferHistory chainStore 2).map (fun o => o.id) = [1, 2] ∧
    ([2, 3] : List Nat) ≠ [1, 2, 3] ∧ ([1, 2] : List Nat) ≠ [1, 2, 3] ∧
    historyRoute chainStore 99 = Except.error "Offer not found" := by
  refine ⟨rfl, rfl, rfl, by decide, by decide, rfl⟩

/-- C6 (code_bug evidence): with exactly one offer the insights handler is
not graceful: building the net-proceeds comparison dereferences
`offers[1]`, which does not exist, so the handler throws (and responds 500)
instead of returning a recommendation naming the buyer. -/
theorem insights_single_offer_throws :
    getInsights [rootOffer] =
      Except.error "TypeError: cannot read netProceeds of undefined" := rfl

/-- C7: with zero offers the insights handler returns the structured
"no offers yet" result — a recommendation message with every other field
null — and no exception. -/
theorem insights_empty_offers :
    getInsights [] = Except.ok noOffersInsights ∧
    noOffersInsights.recommendation = "No offers to analyze yet" ∧
    noOffersInsights.riskAssessment = none ∧
    noOffersInsights.netProceedsComparison = none ∧
    noOffersInsights.negotiationOpportunities = none :=
  ⟨rfl, rfl, rfl, rfl, rfl⟩

/-- C8 (counterexample): the claim that a percent-classified commission is
persisted resolved to dollars is false: on the sample percent input 10 at
price 500000 the resolved dollar amount would be 50000, but the stored
`agentCommission` is the raw value 10. -/
theorem stored_commission_not_resolved :
    (postOffer sampleListing percentInsert 1 1).agentCommission = some 10 ∧
    percentInsert.price * 10 / 100 = 50000 ∧
    (some (10 : ℚ) : Option ℚ) ≠ some 50000 := by
  refine ⟨rfl, ?_, by simp⟩
  rw [show percentInsert.price = 500000 from rfl]
  norm_num

/-- C8 (amended): for a percent-classified commission input c (0 < c ≤ 20)
the persisted offer stores the raw value c itself, together with the
pass-through `commissionType` flag; the dollar resolution happens only
inside the transient net-proceeds computation of the route. -/
theorem stored_commission_raw (listing : Listing) (ins : InsertOffer)
    (userId id : Nat) (c : ℚ) (h : ins.agentCommission = some c)
    (_h1 : 0 < c) (_h2 : c ≤ 20) :
    (postOffer listing ins userId id).agentCommission = some c ∧
    (postOffer listing ins userId id).commissionType = ins.commissionType :=
  ⟨by
    rw [show (postOffer listing ins userId id).agentCommission =
      ins.agentCommission from rfl, h], rfl⟩

/-- Witness for the amended C8: the sample percent input 10 is stored as 10
with its "percent" flag. -/
theorem stored_commission_raw_witness :
    (postOffer sampleListing percentInsert 1 1).agentCommission = some 10 ∧
    (postOffer sampleListing percentInsert 1 1).commissionType =
      some "percent" := by
  have h := stored_commission_raw sampleListing percentInsert 1 1 10 rfl
    (by norm_num) (by norm_num)
  exact ⟨h.1, h.2.trans rfl⟩

/-- C9: when no commission is supplied, the stored net proceeds reflect the
6% default of `MemStorage.createOffer`: the persisted `netProceeds` is
`price - 0.06 * price`. -/
theorem default_commission_six_percent (listing : Listing)
    (ins : InsertOffer) (userId id : Nat) (h : ins.agentCommission = none) :
    (postOffer listing ins userId id).netProceeds =
      some (ins.price - 6/100 * ins.price) := by
  show some (ins.price - storageCommission ins.price ins.agentCommission) = _
  rw [h]
  rfl

/-- Witness for C9: the no-commission insert at price 500000 is stored with
net proceeds 470000 = 500000 - 6% of 500000. -/
theorem default_commission_six_percent_witness :
    (postOffer sampleListing noCommissionInsert 1 1).netProceeds =
      some 470000 := by
  rw [default_commission_six_percent sampleListing noCommissionInsert 1 1 rfl,
    show noCommissionInsert.price = 500000 from rfl]
  norm_num

/-- C10: `MemStorage.updateOffer` is a pure spread-merge: the returned
offer keeps the creation-time `netProceeds`, `riskScore` and `overallScore`
(whatever the patch contains — in particular a price update triggers no
recomputation), keeps `id` and `userId`, keeps every insert field the patch
does not supply, and on a missing id returns `undefined` with the store
untouched. -/
theorem updateOffer_frame (store : List Offer) (id : Nat) (p : OfferPatch) :
    (∀ o o2, getOffer store id = some o →
      (updateOffer store id p).1 = some o2 →
      o2.netProceeds = o.netProceeds ∧
      o2.riskScore = o.riskScore ∧
      o2.overallScore = o.overallScore ∧
      o2.id = o.id ∧ o2.userId = o.userId ∧
      (p.price = none → o2.price = o.price) ∧
      (p.listingId = none → o2.listingId = o.listingId) ∧
      (p.parentOfferId = none → o2.parentOfferId = o.parentOfferId) ∧
      (p.versionNumber = none → o2.versionNumber = o.versionNumber) ∧
      (p.isCounterOffer = none → o2.isCounterOffer = o.isCounterOffer) ∧
      (p.buyerName = none → o2.buyerName = o.buyerName) ∧
      (p.buyerType = none → o2.buyerType = o.buyerType) ∧
      (p.agentCommission = none → o2.agentCommission = o.agentCommission) ∧
      (p.commissionType = none → o2.commissionType = o.commissionType) ∧
      (p.closingTimelineDays = none →
        o2.closingTimelineDays = o.closingTimelineDays) ∧
      (p.contingencies = none → o2.contingencies = o.contingencies) ∧
      (p.notes = none → o2.notes = o.notes)) ∧
    (getOffer store id = none → updateOffer store id p = (none, store)) := by
  constructor
  · intro o o2 h h2
    simp only [updateOffer, h] at h2
    obtain rfl : applyPatch o p = o2 := Option.some.inj h2
    refine ⟨rfl, rfl, rfl, rfl, rfl, ?_, ?_, ?_, ?_, ?_, ?_, ?_, ?_, ?_, ?_,
      ?_, ?_⟩
    all_goals intro hp
    all_goals simp [applyPatch, hp]
  · intro h
    simp only [updateOffer, h]

/-- Witness for C10: patching only the price of the root offer keeps its
net proceeds and buyer name, and updating a missing id 99 returns none and
leaves the store as it was. -/
theorem updateOffer_frame_witness :
    (applyPatch rootOffer pricePatch).netProceeds = rootOffer.netProceeds ∧
    (applyPatch rootOffer pricePatch).buyerName = rootOffer.buyerName ∧
    updateOffer [rootOffer] 99 pricePatch = (none, [rootOffer]) := by
  have h := (updateOffer_frame [rootOffer] 1 pricePatch).1 rootOffer
    (applyPatch rootOffer pricePatch) rfl rfl
  have h2 := (updateOffer_frame [rootOffer] 99 pricePatch).2 rfl
  exact ⟨h.1, h.2.2.2.2.2.2.2.2.2.2.1 rfl, h2⟩

end OfferCompare
